import Mathlib

/-!
# Verification of `transcribe.py`

A shallow embedding of the transcription pipeline in `src/transcribe.py`
(a small Python program driving ffmpeg and whisper), together with proofs
of the specification claims about it.

Python strings are modelled as Lean `String`; Python `None`-able values as
`Option`; exceptions as an explicit outcome type.  The two external
collaborators (ffmpeg audio extraction and whisper recognition) are
modelled as oracles supplied in a `RunEnv`, since the spec covers them only
at their interface boundary.
-/

namespace Transcriber

/-! ## Python string primitives -/

/-- ASCII whitespace as recognised by the Python `str.strip()` method
(space, tab, newline, carriage return, vertical tab, form feed). -/
def isPySpace (c : Char) : Bool :=
  c = ' ' || c = '\t' || c = '\n' || c = '\r' || c = '\x0b' || c = '\x0c'

/-- Python `s.strip(chars)`: remove every leading and trailing character
satisfying `p`. -/
def pyStripBy (p : Char → Bool) (s : String) : String :=
  ⟨((s.data.dropWhile p).reverse.dropWhile p).reverse⟩

/-- Python `s.strip()` (whitespace on both ends). -/
def pyStrip (s : String) : String := pyStripBy isPySpace s

/-- Python `s.lower()` (ASCII case fold; extensions here are ASCII). -/
def pyLower (s : String) : String := ⟨s.data.map Char.toLower⟩

/-! ## POSIX path primitives (the `os.path` module on the platform of the source) -/

/-- The characters of `os.path.basename`: everything after the last `/`. -/
def pathBasenameChars (l : List Char) : List Char :=
  (l.reverse.takeWhile (fun c => c ≠ '/')).reverse

/-- Python `os.path.basename`. -/
def pathBasename (s : String) : String := ⟨pathBasenameChars s.data⟩

/-- Python `os.path.dirname`: the part up to the last `/`, with trailing slashes
stripped unless the head consists of slashes only. -/
def pathDirname (s : String) : String :=
  let head := (s.data.reverse.dropWhile (fun c => c ≠ '/')).reverse
  if head.all (fun c => c = '/') then ⟨head⟩
  else ⟨(head.reverse.dropWhile (fun c => c = '/')).reverse⟩

/-- The extension part of `os.path.splitext` (characters): the suffix of the
basename from its last dot, provided some non-dot character precedes that
dot inside the basename (so dotfiles such as `.bashrc` have no extension). -/
def splitextExtChars (l : List Char) : List Char :=
  let revBase := (pathBasenameChars l).reverse
  let revExtCand := revBase.takeWhile (fun c => c ≠ '.')
  match revBase.dropWhile (fun c => c ≠ '.') with
  | [] => []
  | _ :: before =>
    if before.any (fun c => c ≠ '.') then '.' :: revExtCand.reverse
    else []

/-- Python `os.path.splitext(s)[1]`. -/
def splitextExt (s : String) : String := ⟨splitextExtChars s.data⟩

/-- Python `os.path.splitext(s)[0]`: the path with its extension removed. -/
def splitextRoot (s : String) : String :=
  ⟨s.data.take (s.data.length - (splitextExtChars s.data).length)⟩

/-- Python `os.path.join(a, b)` (POSIX): `b` if absolute, else `a`, a separator
when needed, then `b`. -/
def pathJoin (a b : String) : String :=
  if b.data.head? = some '/' then b
  else if a = "" ∨ a.data.getLast? = some '/' then a ++ b
  else a ++ "/" ++ b

/-! ## `transcribe.py` definitions -/

/-- Constant `SUPPORTED_EXTS = {".mp4", ".mov", ".avi"}` (transcribe.py line 10). -/
def SUPPORTED_EXTS : List String := [".mp4", ".mov", ".avi"]

/-- Function `normalize_path` (transcribe.py lines 13-14):
strip whitespace, then double quotes, then single quotes, from both ends. -/
def normalize_path (path : String) : String :=
  pyStripBy (fun c => c = '\x27') (pyStripBy (fun c => c = '"') (pyStrip path))

/-- One entry of the `segments` list of the recognition result. -/
structure Segment where
  text : String
deriving Repr, DecidableEq

/-- The dictionary returned by the whisper collaborator:
`{ "text": ..., "segments": ... }`; either key may be absent. -/
structure RecResult where
  text : Option String
  segments : Option (List Segment)
deriving Repr, DecidableEq

/-- Exceptions that can surface from `transcribe_video`. -/
inductive Exc where
  /-- Python `ValueError(msg)`. -/
  | valueError (msg : String)
  /-- Python `FileNotFoundError(msg)`. -/
  | fileNotFoundError (msg : String)
  /-- The `ffmpeg.Error` exception raised by the ffmpeg collaborator. -/
  | ffmpegError (msg : String)
  /-- Python `RuntimeError(msg)`, raised by the except-clause of transcribe_video. -/
  | runtimeError (msg : String)
  /-- An exception raised by the whisper collaborator
  (`load_model` / `transcribe_audio`); not an `ffmpeg.Error`, so
  `transcribe_video` propagates it unchanged. -/
  | recognitionFailed (msg : String)
deriving Repr, DecidableEq

/-- Python `str(exc)` for each modelled exception (each is constructed
with a single message argument). -/
def excMsg : Exc → String
  | .valueError m => m
  | .fileNotFoundError m => m
  | .ffmpegError m => m
  | .runtimeError m => m
  | .recognitionFailed m => m

/-- The terminal value of one `transcribe_video` call: the returned
transcript path, or the exception that escaped. -/
inductive Outcome where
  | ok (txtPath : String)
  | error (exc : Exc)
deriving Repr, DecidableEq

/-- The oracles one run consults: the filesystem predicate `os.path.isfile`,
the `WHISPER_MODEL` environment variable, and the behaviour of the two
collaborator calls of this run. -/
structure RunEnv where
  /-- Python `os.path.isfile`. -/
  isfile : String → Bool
  /-- Python `os.environ.get("WHISPER_MODEL")` (`none` when unset). -/
  whisperEnv : Option String
  /-- Behaviour of `extract_audio`: `some m` means it raises `ffmpeg.Error` with
  message `m`; `none` means it succeeds. -/
  extract : Option String
  /-- Behaviour of `load_model` plus `transcribe_audio`: `.ok r` is the returned result
  dictionary, `.error m` an exception with message `m`. -/
  recognize : Except String RecResult

/-- Model-name resolution, transcribe.py line 62,
`model_name or os.environ.get("WHISPER_MODEL", "base")`: Python `or` treats `None` and `""` as falsy;
`environ.get` falls back to `"base"` only when the variable is unset. -/
def resolveModel (modelName : Option String) (envVar : Option String) : String :=
  match modelName with
  | some m => if m = "" then envVar.getD "base" else m
  | none => envVar.getD "base"

/-- The text-extraction step (transcribe.py lines 66-68):
`text = result.get("text", "").strip()`; if that is empty and
`result.get("segments")` is truthy (present and non-empty), rebuild the
text from the segments, each stripped, joined by newline, stripped again. -/
def extractText (r : RecResult) : String :=
  let text := pyStrip (r.text.getD "")
  if text = "" ∧ r.segments.getD [] ≠ [] then
    pyStrip (String.intercalate "\n" ((r.segments.getD []).map (fun s => pyStrip s.text)))
  else text

/-- The transcript path derived at transcribe.py lines 49-51:
`output_dir = dirname or "."`, `base_name = splitext(basename)[0]`,
`txt_path = join(output_dir, base_name + ".txt")`. -/
def outputTxtPath (vp : String) : String :=
  let outputDir := if pathDirname vp = "" then "." else pathDirname vp
  let baseName := splitextRoot (pathBasename vp)
  pathJoin outputDir (baseName ++ ".txt")

/-- What the `try`-block of `transcribe_video` produces once validation has
passed and the temporary file exists: an outcome, the status messages
emitted so far in order, the file written (path, content) if any, the model
name passed to `load_model` if reached, and whether the temporary file
still exists when control leaves the block. -/
structure BodyResult where
  outcome : Outcome
  statuses : List String
  written : Option (String × String)
  modelUsed : Option String
  tempLive : Bool
deriving Repr, DecidableEq

/-- The `try`-block, transcribe.py lines 57-75.  `extract_audio` failure
raises `ffmpeg.Error`; a whisper failure raises its own exception; on
success the result text is persisted to `txtPath` (unconditional `open`
with mode `"w"`, silently overwriting) and the final two statuses are
emitted. -/
def transcribeBody (txtPath : String) (modelName : Option String) (env : RunEnv) :
    BodyResult :=
  match env.extract with
  | some m =>
    { outcome := .error (.ffmpegError m)
      statuses := ["Извлечение аудио..."]
      written := none, modelUsed := none, tempLive := true }
  | none =>
    let resolved := resolveModel modelName env.whisperEnv
    match env.recognize with
    | .error m =>
      { outcome := .error (.recognitionFailed m)
        statuses := ["Извлечение аудио...", "Распознавание..."]
        written := none, modelUsed := some resolved, tempLive := true }
    | .ok r =>
      let text := extractText r
      { outcome := .ok txtPath
        statuses := ["Извлечение аудио...", "Распознавание...", "Готово!",
                     "Сохранено в " ++ txtPath]
        written := some (txtPath, text), modelUsed := some resolved
        tempLive := true }

/-- The `except ffmpeg.Error` clause (transcribe.py lines 76-77): an
`ffmpeg.Error` is re-raised as `RuntimeError(f"Ошибка ffmpeg: {exc}")`;
every other exception passes through unchanged. -/
def handleFfmpeg : Exc → Exc
  | .ffmpegError m => .runtimeError ("Ошибка ffmpeg: " ++ m)
  | e => e

/-- The `finally` clause (transcribe.py lines 78-80):
`if os.path.exists(audio_path): os.remove(audio_path)`. -/
def removeIfLive (tempLive : Bool) : Bool :=
  if tempLive then false else tempLive

/-- Everything observable about one `transcribe_video` call. -/
structure RunResult where
  outcome : Outcome
  statuses : List String
  written : Option (String × String)
  modelUsed : Option String
  /-- Whether the temporary waveform file was ever created. -/
  tempCreated : Bool
  /-- Whether the temporary waveform file exists after the call returns
  or raises. -/
  tempExistsAfter : Bool
deriving Repr, DecidableEq

/-- Function `transcribe_video` (transcribe.py lines 34-80).  Validation happens in
source order: the raw-path emptiness test, then `normalize_path`, then the
`isfile` test, then the extension test; only then is the temporary file
created and the `try`/`except`/`finally` entered. -/
def transcribe_video (videoPath : String) (modelName : Option String)
    (env : RunEnv) : RunResult :=
  if videoPath = "" then
    { outcome := .error (.valueError "Путь к файлу не указан.")
      statuses := [], written := none, modelUsed := none
      tempCreated := false, tempExistsAfter := false }
  else
    let vp := normalize_path videoPath
    if env.isfile vp = false then
      { outcome := .error (.fileNotFoundError ("Файл не найден: " ++ vp))
        statuses := [], written := none, modelUsed := none
        tempCreated := false, tempExistsAfter := false }
    else if pyLower (splitextExt vp) ∉ SUPPORTED_EXTS then
      { outcome := .error (.valueError
          ("Поддерживаемые форматы: " ++
            String.intercalate ", " [".avi", ".mov", ".mp4"]))
        statuses := [], written := none, modelUsed := none
        tempCreated := false, tempExistsAfter := false }
    else
      let txtPath := outputTxtPath vp
      let body := transcribeBody txtPath modelName env
      { outcome :=
          match body.outcome with
          | .ok p => .ok p
          | .error e => .error (handleFfmpeg e)
        statuses := body.statuses
        written := body.written
        modelUsed := body.modelUsed
        tempCreated := true
        tempExistsAfter := removeIfLive body.tempLive }

/-! ## Worker of the asynchronous UI runner (transcribe.py lines 126-133)

The worker calls `transcribe_video` with a status hook that enqueues
`("status", message)` tuples onto the shared FIFO queue, then enqueues
`("done", txt_path)` on normal return or `("error", str(exc))` on any
exception.  Since the queue is FIFO with this worker as the only producer
for the run, the list below is exactly the sequence of tuples the consumer
observes for the run. -/
def workerQueue (videoPath modelName : String) (env : RunEnv) :
    List (String × String) :=
  let r := transcribe_video videoPath (some modelName) env
  (r.statuses.map (fun m => ("status", m))) ++
    [match r.outcome with
     | .ok p => ("done", p)
     | .error e => ("error", excMsg e)]

/-! ## The command-line surface (transcribe.py lines 83-90 and 202-216) -/

/-- Which branch `main` takes, as a function of `sys.argv[1:]`. -/
inductive MainAction where
  | launchGui
  | usage
  | runCli (path : String)
deriving Repr, DecidableEq

/-- Dispatch logic of `main` (transcribe.py lines 202-214):
`use_gui = "--gui" in raw_args or not raw_args`;
`args = [a for a in raw_args if a != "--gui"]`;
GUI if `use_gui`, usage-and-exit if `args` is empty, else CLI on `args[0]`. -/
def mainAction (raw : List String) : MainAction :=
  let useGui := raw.contains "--gui" || raw.isEmpty
  let args := raw.filter (fun a => a != "--gui")
  if useGui then .launchGui
  else
    match args with
    | [] => .usage
    | a :: _ => .runCli a

/-- The two usage lines printed at transcribe.py lines 212-213. -/
def usageLines : List String :=
  ["Использование: python transcribe.py <путь_к_видео>",
   "Для GUI используйте ключ --gui"]

/-- Function `run_cli` (transcribe.py lines 83-90): statuses are printed as they
arrive; on success a result line is printed and the process later exits
with code 0; on any exception its message is printed and `sys.exit(1)`
runs.  Returns (stdout lines, exit code). -/
def runCliObs (videoPath : String) (env : RunEnv) : List String × Nat :=
  let r := transcribe_video videoPath none env
  match r.outcome with
  | .ok p => (r.statuses ++ ["Файл результата: " ++ p], 0)
  | .error e => (r.statuses ++ [excMsg e], 1)

/-- The whole headless process observation:
(GUI launched?, stdout lines, exit code — `none` while the GUI runs). -/
def mainRun (raw : List String) (env : RunEnv) :
    Bool × List String × Option Nat :=
  match mainAction raw with
  | .launchGui => (true, [], none)
  | .usage => (false, usageLines, some 1)
  | .runCli p =>
    let r := runCliObs p env
    (false, r.1, some r.2)

/-! ## Spec-side definitions for refinement claims -/

/-- The text-extraction rule as the spec words it: prefer the trimmed
top-level text; if that is empty and a segment list is *present*, use the
per-segment texts, each trimmed, joined by newline, trimmed again.
(The code instead tests that the segment list is present *and non-empty*;
the two agree extensionally because the fallback on an empty list yields
the empty string.) -/
def specExtractText (r : RecResult) : String :=
  let text := pyStrip (r.text.getD "")
  if text = "" then
    match r.segments with
    | some segs =>
      pyStrip (String.intercalate "\n" (segs.map (fun s => pyStrip s.text)))
    | none => text
  else text

/-- Validation passes: the raw path is non-empty, the normalized path is a
regular file, and its lower-cased extension is supported. -/
def ValidInput (videoPath : String) (env : RunEnv) : Prop :=
  videoPath ≠ "" ∧ env.isfile (normalize_path videoPath) = true ∧
    pyLower (splitextExt (normalize_path videoPath)) ∈ SUPPORTED_EXTS

instance (videoPath : String) (env : RunEnv) :
    Decidable (ValidInput videoPath env) := by
  unfold ValidInput; infer_instance

/-! ## Concrete run environments, used to evaluate the model -/

/-- Every path is a regular file, extraction succeeds, recognition
returns `rec`, `WHISPER_MODEL` is unset. -/
def envOk (rec : RecResult) : RunEnv :=
  { isfile := fun _ => true, whisperEnv := none, extract := none
    recognize := .ok rec }

/-- No path is a regular file; the collaborators are never reached. -/
def envNoFile : RunEnv :=
  { isfile := fun _ => false, whisperEnv := none, extract := none
    recognize := .error "unreached" }

/-- Every path is a regular file and extraction raises `ffmpeg.Error m`. -/
def envExtractFail (m : String) : RunEnv :=
  { isfile := fun _ => true, whisperEnv := none, extract := some m
    recognize := .error "unreached" }

/-- Every path is a regular file, extraction succeeds, and recognition
raises an exception with message `m`. -/
def envRecognizeFail (m : String) : RunEnv :=
  { isfile := fun _ => true, whisperEnv := none, extract := none
    recognize := .error m }

/-! ## Helper lemmas -/

/-- The finally-clause always leaves the temporary file absent. -/
lemma removeIfLive_eq_false (b : Bool) : removeIfLive b = false := by
  cases b <;> rfl

/-- On valid input with a failing extraction, the run raises the wrapped
`RuntimeError` after a single status, having created and then removed the
temporary file. -/
lemma run_extract_fail {videoPath : String} {env : RunEnv}
    (modelName : Option String) (m : String)
    (h : ValidInput videoPath env) (hex : env.extract = some m) :
    transcribe_video videoPath modelName env =
      { outcome := .error (.runtimeError ("Ошибка ffmpeg: " ++ m))
        statuses := ["Извлечение аудио..."]
        written := none, modelUsed := none
        tempCreated := true, tempExistsAfter := false } := by
  obtain ⟨h1, h2, h3⟩ := h
  simp [transcribe_video, h1, h2, h3, transcribeBody, hex, handleFfmpeg,
    removeIfLive]

/-- On valid input with a failing recognition, the run propagates the
collaborator exception unchanged after two statuses, again removing the
temporary file. -/
lemma run_recognize_fail {videoPath : String} {env : RunEnv}
    (modelName : Option String) (m : String)
    (h : ValidInput videoPath env) (hex : env.extract = none)
    (hrec : env.recognize = .error m) :
    transcribe_video videoPath modelName env =
      { outcome := .error (.recognitionFailed m)
        statuses := ["Извлечение аудио...", "Распознавание..."]
        written := none
        modelUsed := some (resolveModel modelName env.whisperEnv)
        tempCreated := true, tempExistsAfter := false } := by
  obtain ⟨h1, h2, h3⟩ := h
  simp [transcribe_video, h1, h2, h3, transcribeBody, hex, hrec,
    handleFfmpeg, removeIfLive]

/-- On valid input with both collaborators succeeding, the run succeeds
with the derived transcript path, the four statuses, and the extracted
text persisted. -/
lemma run_success {videoPath : String} {env : RunEnv}
    (modelName : Option String) (rec : RecResult)
    (h : ValidInput videoPath env) (hex : env.extract = none)
    (hrec : env.recognize = .ok rec) :
    transcribe_video videoPath modelName env =
      { outcome := .ok (outputTxtPath (normalize_path videoPath))
        statuses := ["Извлечение аудио...", "Распознавание...", "Готово!",
                     "Сохранено в " ++ outputTxtPath (normalize_path videoPath)]
        written := some (outputTxtPath (normalize_path videoPath), extractText rec)
        modelUsed := some (resolveModel modelName env.whisperEnv)
        tempCreated := true, tempExistsAfter := false } := by
  obtain ⟨h1, h2, h3⟩ := h
  simp [transcribe_video, h1, h2, h3, transcribeBody, hex, hrec,
    handleFfmpeg, removeIfLive]

/-- A failing validation leaves every effect field empty. -/
lemma run_invalid {videoPath : String} {env : RunEnv}
    (modelName : Option String) (h : ¬ ValidInput videoPath env) :
    ∃ e, transcribe_video videoPath modelName env =
      { outcome := .error e, statuses := [], written := none
        modelUsed := none, tempCreated := false, tempExistsAfter := false } := by
  by_cases h1 : videoPath = ""
  · exact ⟨.valueError "Путь к файлу не указан.", by simp [transcribe_video, h1]⟩
  · by_cases h2 : env.isfile (normalize_path videoPath) = true
    · by_cases h3 : pyLower (splitextExt (normalize_path videoPath)) ∈ SUPPORTED_EXTS
      · exact absurd ⟨h1, h2, h3⟩ h
      · exact ⟨.valueError ("Поддерживаемые форматы: " ++
            String.intercalate ", " [".avi", ".mov", ".mp4"]),
          by simp [transcribe_video, h1, h2, h3]⟩
    · rw [Bool.not_eq_true] at h2
      exact ⟨.fileNotFoundError ("Файл не найден: " ++ normalize_path videoPath),
        by simp [transcribe_video, h1, h2]⟩

set_option maxHeartbeats 1000000 in
/-- A successful `transcribe_video` run is fully determined: validation
passed, both collaborators succeeded, the returned path is the derived
transcript path, and every observable field has its success value. -/
lemma run_ok_elim {videoPath : String} {modelName : Option String}
    {env : RunEnv} {p : String}
    (h : (transcribe_video videoPath modelName env).outcome = .ok p) :
    ∃ rec, ValidInput videoPath env ∧ env.extract = none ∧
      env.recognize = .ok rec ∧
      p = outputTxtPath (normalize_path videoPath) ∧
      transcribe_video videoPath modelName env =
        { outcome := .ok p
          statuses := ["Извлечение аудио...", "Распознавание...", "Готово!",
                       "Сохранено в " ++ p]
          written := some (p, extractText rec)
          modelUsed := some (resolveModel modelName env.whisperEnv)
          tempCreated := true, tempExistsAfter := false } := by
  by_cases hv : ValidInput videoPath env
  · cases hex : env.extract with
    | some m =>
      rw [@run_extract_fail videoPath env modelName m hv hex] at h
      exact Outcome.noConfusion h
    | none =>
      cases hrec : env.recognize with
      | error m =>
        rw [@run_recognize_fail videoPath env modelName m hv hex hrec] at h
        exact Outcome.noConfusion h
      | ok rec =>
        have h2 := h
        rw [@run_success videoPath env modelName rec hv hex hrec] at h2
        have hp : p = outputTxtPath (normalize_path videoPath) :=
          (Outcome.ok.injEq _ _).mp h2.symm
        rw [hp]
        exact ⟨rec, hv, rfl, rfl, rfl,
          @run_success videoPath env modelName rec hv hex hrec⟩
  · obtain ⟨e, he⟩ := @run_invalid videoPath env modelName hv
    rw [he] at h
    exact Outcome.noConfusion h

/-- Status tuples never satisfy the terminal-tuple predicate. -/
lemma statusTuples_filter_terminal (l : List String) :
    (l.map (fun m => (("status" : String), m))).filter
      (fun x => x.1 == "done" || x.1 == "error") = [] := by
  induction l with
  | nil => rfl
  | cons a as ih => simp [List.filter, ih]

/-- When `--gui` does not occur in the argument list, the filtering step
of `main` keeps the whole list. -/
lemma filter_nogui {raw : List String} (h : ¬ "--gui" ∈ raw) :
    raw.filter (fun a => a != "--gui") = raw := by
  apply List.filter_eq_self.mpr
  intro a ha
  simp only [bne_iff_ne, ne_eq]
  rintro rfl
  exact h ha

/-! ## The claims -/

/-- C1 (counterexample): the claim names English literal status messages;
the code emits Russian literals.  A concrete successful run returns the
derived path, yet its status trace differs from the list the claim
states. -/
theorem C1_counterexample :
    (transcribe_video "movie.mp4" none (envOk ⟨some "hi", none⟩)).outcome =
        .ok "./movie.txt" ∧
    (transcribe_video "movie.mp4" none (envOk ⟨some "hi", none⟩)).statuses ≠
        ["extracting audio", "recognizing", "done", "saved to ./movie.txt"] := by
  constructor
  · rfl
  · decide

/-- C1 (amended): for every successful run of `transcribe_video`, the
status hook is invoked exactly four times, in exactly this order and with
these literal messages: "Извлечение аудио...", "Распознавание...",
"Готово!", "Сохранено в " followed by the output path; the fixed
four-element trace leaves no room for a repeated or out-of-order event. -/
theorem C1_status_trace (videoPath : String) (modelName : Option String)
    (env : RunEnv) (p : String)
    (h : (transcribe_video videoPath modelName env).outcome = .ok p) :
    (transcribe_video videoPath modelName env).statuses =
      ["Извлечение аудио...", "Распознавание...", "Готово!",
       "Сохранено в " ++ p] := by
  obtain ⟨rec, _, _, _, _, hrun⟩ := run_ok_elim h
  rw [hrun]

/-- C1 witness: the amended theorem evaluated on a concrete successful
run. -/
theorem C1_status_trace_witness :
    (transcribe_video "movie.mp4" none (envOk ⟨some "hi", none⟩)).statuses =
      ["Извлечение аудио...", "Распознавание...", "Готово!",
       "Сохранено в " ++ "./movie.txt"] :=
  C1_status_trace "movie.mp4" none (envOk ⟨some "hi", none⟩) "./movie.txt"
    (by rfl)

/-- C2: for every run of `transcribe_video`, whatever the outcome, the
temporary waveform file does not exist after the run terminates; and for
runs failing input validation (empty path, missing file, unsupported
extension) the temporary file is never created at all. -/
theorem C2_temp_file (videoPath : String) (modelName : Option String)
    (env : RunEnv) :
    (transcribe_video videoPath modelName env).tempExistsAfter = false ∧
    (¬ ValidInput videoPath env →
      (transcribe_video videoPath modelName env).tempCreated = false) := by
  constructor
  · by_cases hv : ValidInput videoPath env
    · cases hex : env.extract with
      | some m => rw [@run_extract_fail videoPath env modelName m hv hex]
      | none =>
        cases hrec : env.recognize with
        | error m =>
          rw [@run_recognize_fail videoPath env modelName m hv hex hrec]
        | ok rec =>
          rw [@run_success videoPath env modelName rec hv hex hrec]
    · obtain ⟨e, he⟩ := @run_invalid videoPath env modelName hv
      rw [he]
  · intro hv
    obtain ⟨e, he⟩ := @run_invalid videoPath env modelName hv
    rw [he]

/-- C2 witness: the validation-failing input `notes.pdf` (unsupported
extension): no temporary file created, none left behind. -/
theorem C2_temp_file_witness :
    (transcribe_video "notes.pdf" none (envOk ⟨some "x", none⟩)).tempExistsAfter
        = false ∧
    (transcribe_video "notes.pdf" none (envOk ⟨some "x", none⟩)).tempCreated
        = false :=
  ⟨(C2_temp_file "notes.pdf" none (envOk ⟨some "x", none⟩)).1,
   (C2_temp_file "notes.pdf" none (envOk ⟨some "x", none⟩)).2 (by decide)⟩

/-- C3: the text-extraction rule of `transcribe_video` agrees with the
spec-worded rule on every recognition result (prefer the trimmed top-level
text, else per-segment texts trimmed, newline-joined, trimmed again), and
on the result `{text: "", segments: [{text: "a "}, {text: " b"}]}` the
persisted output is exactly `a\nb`. -/
theorem C3_text_extraction :
    (∀ r, extractText r = specExtractText r) ∧
    extractText ⟨some "", some [⟨"a "⟩, ⟨" b"⟩]⟩ = "a\nb" ∧
    (transcribe_video "clip.avi" none
        (envOk ⟨some "", some [⟨"a "⟩, ⟨" b"⟩]⟩)).written =
      some ("./clip.txt", "a\nb") := by
  refine ⟨?_, by decide, by decide⟩
  intro r
  unfold extractText specExtractText
  cases hseg : r.segments with
  | none => simp
  | some segs =>
    cases segs with
    | nil =>
      by_cases ht : pyStrip (r.text.getD "") = ""
      · simp [ht]
        rfl
      · simp [ht]
    | cons a as =>
      by_cases ht : pyStrip (r.text.getD "") = "" <;> simp [ht]

/-- C4: the output path of a successful run equals the derived path (same
directory, same base filename, fixed `.txt` extension) — a pure function
of the input path, identical across any model argument and any
environment (so in particular independent of whether a file already
exists there: the write is unconditional) — and the written file is that
path with the extracted text. -/
theorem C4_output_path (videoPath : String) (m₁ m₂ : Option String)
    (e₁ e₂ : RunEnv) (p q : String)
    (h₁ : (transcribe_video videoPath m₁ e₁).outcome = .ok p)
    (h₂ : (transcribe_video videoPath m₂ e₂).outcome = .ok q) :
    p = outputTxtPath (normalize_path videoPath) ∧ q = p ∧
    ∃ rec, e₁.recognize = .ok rec ∧
      (transcribe_video videoPath m₁ e₁).written = some (p, extractText rec) := by
  obtain ⟨rec₁, _, _, hrec₁, hp, hrun₁⟩ := run_ok_elim h₁
  obtain ⟨rec₂, _, _, _, hq, _⟩ := run_ok_elim h₂
  refine ⟨hp, by rw [hp, hq], rec₁, hrec₁, ?_⟩
  rw [hrun₁]

/-- C4 witness: `/videos/movie.mp4` with recognized text
`"  hello world  "` yields `/videos/movie.txt` containing exactly
`hello world`. -/
theorem C4_output_path_witness :
    (transcribe_video "/videos/movie.mp4" none
        (envOk ⟨some "  hello world  ", none⟩)).outcome =
      .ok "/videos/movie.txt" ∧
    "/videos/movie.txt" = outputTxtPath (normalize_path "/videos/movie.mp4") ∧
    (transcribe_video "/videos/movie.mp4" none
        (envOk ⟨some "  hello world  ", none⟩)).written =
      some ("/videos/movie.txt", "hello world") := by
  have h := C4_output_path "/videos/movie.mp4" none none
      (envOk ⟨some "  hello world  ", none⟩) (envOk ⟨some "  hello world  ", none⟩)
      "/videos/movie.txt" "/videos/movie.txt" (by decide) (by decide)
  exact ⟨by decide, h.1, by decide⟩

/-- C5 counterexample: the claim says every path consisting only of
whitespace or quotes fails with the empty-path error; in the code the
emptiness test runs on the raw path before trimming, so the input `" "`
passes it, normalizes to `""`, and fails the file-existence check with
the missing-file error instead. -/
theorem C5_counterexample :
    (transcribe_video " " none envNoFile).outcome =
      .error (.fileNotFoundError "Файл не найден: ") ∧
    (transcribe_video " " none envNoFile).outcome ≠
      .error (.valueError "Путь к файлу не указан.") := by
  constructor
  · rfl
  · decide

/-- C5 (amended): validation order and failure modes — (a) the empty-path
`ValueError` fires exactly when the raw, untrimmed path is empty;
(b) otherwise, when the normalized path is not a regular file, the
missing-file `FileNotFoundError` fires (this is what whitespace- or
quote-only paths hit); (c) otherwise, an unsupported lower-cased
extension raises the supported-formats `ValueError`. -/
theorem C5_validation_order (videoPath : String) (modelName : Option String)
    (env : RunEnv) :
    (videoPath = "" →
      (transcribe_video videoPath modelName env).outcome =
        .error (.valueError "Путь к файлу не указан.")) ∧
    (videoPath ≠ "" → env.isfile (normalize_path videoPath) = false →
      (transcribe_video videoPath modelName env).outcome =
        .error (.fileNotFoundError ("Файл не найден: " ++
          normalize_path videoPath))) ∧
    (videoPath ≠ "" → env.isfile (normalize_path videoPath) = true →
      pyLower (splitextExt (normalize_path videoPath)) ∉ SUPPORTED_EXTS →
      (transcribe_video videoPath modelName env).outcome =
        .error (.valueError ("Поддерживаемые форматы: " ++
          String.intercalate ", " [".avi", ".mov", ".mp4"]))) := by
  refine ⟨fun h1 => ?_, fun h1 h2 => ?_, fun h1 h2 h3 => ?_⟩
  · simp [transcribe_video, h1]
  · simp [transcribe_video, h1, h2]
  · simp [transcribe_video, h1, h2, h3]

/-- C5 witness: the three failure modes at concrete inputs: `""`, `" "`
(missing-file, not empty-path), and `notes.pdf`. -/
theorem C5_validation_order_witness :
    (transcribe_video "" none envNoFile).outcome =
      .error (.valueError "Путь к файлу не указан.") ∧
    (transcribe_video " " none envNoFile).outcome =
      .error (.fileNotFoundError ("Файл не найден: " ++ normalize_path " ")) ∧
    (transcribe_video "notes.pdf" none (envOk ⟨some "x", none⟩)).outcome =
      .error (.valueError ("Поддерживаемые форматы: " ++
        String.intercalate ", " [".avi", ".mov", ".mp4"])) :=
  ⟨(C5_validation_order "" none envNoFile).1 rfl,
   (C5_validation_order " " none envNoFile).2.1 (by decide) (by decide),
   (C5_validation_order "notes.pdf" none (envOk ⟨some "x", none⟩)).2.2
     (by decide) (by decide) (by decide)⟩

/-- C6: on valid input, an `ffmpeg.Error` from extraction surfaces as a
`RuntimeError` wrapping the underlying message, and an exception from the
transcription model propagates as the distinct recognition failure with
its message; in both cases no retry happens (the run terminates with that
error) and the temporary file is removed. -/
theorem C6_failure_wrapping (videoPath : String) (modelName : Option String)
    (env : RunEnv) (m : String) (h : ValidInput videoPath env) :
    (env.extract = some m →
      (transcribe_video videoPath modelName env).outcome =
        .error (.runtimeError ("Ошибка ffmpeg: " ++ m)) ∧
      (transcribe_video videoPath modelName env).tempExistsAfter = false) ∧
    (env.extract = none → env.recognize = .error m →
      (transcribe_video videoPath modelName env).outcome =
        .error (.recognitionFailed m) ∧
      (transcribe_video videoPath modelName env).tempExistsAfter = false) := by
  constructor
  · intro hex
    rw [@run_extract_fail videoPath env modelName m h hex]
    exact ⟨rfl, rfl⟩
  · intro hex hrec
    rw [@run_recognize_fail videoPath env modelName m h hex hrec]
    exact ⟨rfl, rfl⟩

/-- C6 witness: both failure kinds evaluated on concrete runs. -/
theorem C6_failure_wrapping_witness :
    (transcribe_video "a.mp4" none (envExtractFail "boom")).outcome =
      .error (.runtimeError ("Ошибка ffmpeg: " ++ "boom")) ∧
    (transcribe_video "a.mp4" none (envExtractFail "boom")).tempExistsAfter
      = false ∧
    (transcribe_video "a.mp4" none (envRecognizeFail "crash")).outcome =
      .error (.recognitionFailed "crash") ∧
    (transcribe_video "a.mp4" none (envRecognizeFail "crash")).tempExistsAfter
      = false := by
  have h1 := (C6_failure_wrapping "a.mp4" none (envExtractFail "boom") "boom"
    (by decide)).1 rfl
  have h2 := (C6_failure_wrapping "a.mp4" none (envRecognizeFail "crash")
    "crash" (by decide)).2 rfl rfl
  exact ⟨h1.1, h1.2, h2.1, h2.2⟩

/-- C7: for every run, the worker enqueues a sequence of status tuples
followed by exactly one terminal tuple — `("done", path)` when
`transcribe_video` returned the path, `("error", message)` when it raised
— and that terminal tuple is the last element of the queue: exactly one
terminal tuple ever appears, after every status tuple. -/
theorem C7_terminal_tuple (videoPath modelName : String) (env : RunEnv) :
    ∃ ts t, workerQueue videoPath modelName env = ts ++ [t] ∧
      (∀ x ∈ ts, x.1 = "status") ∧
      ((∃ p, (transcribe_video videoPath (some modelName) env).outcome = .ok p
          ∧ t = ("done", p)) ∨
       (∃ e, (transcribe_video videoPath (some modelName) env).outcome =
          .error e ∧ t = ("error", excMsg e))) ∧
      ((workerQueue videoPath modelName env).filter
        (fun x => x.1 == "done" || x.1 == "error")).length = 1 := by
  cases ho : (transcribe_video videoPath (some modelName) env).outcome with
  | ok p =>
    refine ⟨(transcribe_video videoPath (some modelName) env).statuses.map
      (fun m => ("status", m)), ("done", p), by simp [workerQueue, ho], ?_,
      Or.inl ⟨p, rfl, rfl⟩, ?_⟩
    · intro x hx
      obtain ⟨m, _, hm⟩ := List.mem_map.mp hx
      rw [← hm]
    · simp [workerQueue, ho, List.filter_append, statusTuples_filter_terminal,
        List.filter]
  | error e =>
    refine ⟨(transcribe_video videoPath (some modelName) env).statuses.map
      (fun m => ("status", m)), ("error", excMsg e), by simp [workerQueue, ho],
      ?_, Or.inr ⟨e, rfl, rfl⟩, ?_⟩
    · intro x hx
      obtain ⟨m, _, hm⟩ := List.mem_map.mp hx
      rw [← hm]
    · simp [workerQueue, ho, List.filter_append, statusTuples_filter_terminal,
        List.filter]

/-- C7 witness: the terminal-tuple property evaluated on a concrete run. -/
theorem C7_terminal_tuple_witness :
    ∃ ts t, workerQueue "movie.mp4" "base" (envOk ⟨some "hi", none⟩) = ts ++ [t] ∧
      (∀ x ∈ ts, x.1 = "status") ∧
      ((∃ p, (transcribe_video "movie.mp4" (some "base")
          (envOk ⟨some "hi", none⟩)).outcome = .ok p ∧ t = ("done", p)) ∨
       (∃ e, (transcribe_video "movie.mp4" (some "base")
          (envOk ⟨some "hi", none⟩)).outcome = .error e ∧
          t = ("error", excMsg e))) ∧
      ((workerQueue "movie.mp4" "base" (envOk ⟨some "hi", none⟩)).filter
        (fun x => x.1 == "done" || x.1 == "error")).length = 1 :=
  C7_terminal_tuple "movie.mp4" "base" (envOk ⟨some "hi", none⟩)

/-- C8: the command-line surface — the GUI launches exactly when there
are no arguments at all or a `--gui` flag is present; in headless mode
`main` always reaches the CLI runner (so the usage branch is unreachable)
and exits 0 on success and 1 on any failure; and whenever the usage
branch were taken, the usage text would be printed with exit code 1. -/
theorem C8_cli_surface (raw : List String) (env : RunEnv) :
    ((raw = [] ∨ raw.contains "--gui" = true) ↔ mainAction raw = .launchGui) ∧
    (∀ p, mainAction raw = .runCli p →
      mainRun raw env = (false, (runCliObs p env).1, some (runCliObs p env).2) ∧
      (∀ q, (transcribe_video p none env).outcome = .ok q →
        (runCliObs p env).2 = 0) ∧
      (∀ e, (transcribe_video p none env).outcome = .error e →
        (runCliObs p env).2 = 1)) ∧
    (mainAction raw ≠ .launchGui → ∃ p, mainAction raw = .runCli p) ∧
    (mainAction raw = .usage → mainRun raw env = (false, usageLines, some 1)) := by
  have hisEmpty : ∀ (h : raw ≠ []), raw.isEmpty = false := fun h => by
    cases raw with
    | nil => exact absurd rfl h
    | cons a as => rfl
  refine ⟨⟨?_, ?_⟩, ?_, ?_, ?_⟩
  · rintro (rfl | hc)
    · rfl
    · have hm : "--gui" ∈ raw := by simpa using hc
      simp [mainAction, hm]
  · intro h
    by_cases hm : "--gui" ∈ raw
    · exact Or.inr (by simpa using hm)
    · left
      by_cases he : raw = []
      · exact he
      · exfalso
        rcases hargs : raw.filter (fun a => a != "--gui") with _ | ⟨a, as⟩ <;>
          simp [mainAction, hm, hisEmpty he, hargs] at h
  · intro p hp
    refine ⟨by simp [mainRun, hp], ?_, ?_⟩
    · intro q hq
      simp [runCliObs, hq]
    · intro e he
      simp [runCliObs, he]
  · intro h
    by_cases hm : "--gui" ∈ raw
    · exact absurd ((by simp [mainAction, hm] : mainAction raw = .launchGui)) h
    · by_cases he : raw = []
      · subst he
        exact absurd rfl h
      · have hfil := filter_nogui hm
        cases hraw : raw with
        | nil => exact absurd hraw he
        | cons a as =>
          refine ⟨a, ?_⟩
          rw [hraw] at hm hfil
          simp [mainAction, hm, hfil]
  · intro h
    simp [mainRun, h]

/-- C8 witness: concrete instantiations — `--gui` launches the GUI; a
failing headless run exits 1; a successful headless run exits 0. -/
theorem C8_cli_surface_witness :
    mainAction ["--gui"] = .launchGui ∧
    (runCliObs "movie.mp4" (envOk ⟨some "hi", none⟩)).2 = 0 ∧
    (runCliObs "notes.pdf" envNoFile).2 = 1 := by
  refine ⟨(C8_cli_surface ["--gui"] envNoFile).1.mp (Or.inr (by decide)),
    ?_, ?_⟩
  · exact ((C8_cli_surface ["movie.mp4"] (envOk ⟨some "hi", none⟩)).2.1
      "movie.mp4" (by decide)).2.1 "./movie.txt" (by decide)
  · exact ((C8_cli_surface ["notes.pdf"] envNoFile).2.1 "notes.pdf"
      (by decide)).2.2 (.fileNotFoundError "Файл не найден: notes.pdf")
      (by decide)

/-- C9: model-identifier resolution — a non-empty explicit argument wins;
otherwise the `WHISPER_MODEL` environment value is used when set;
otherwise the literal `"base"`; and whenever `transcribe_video` reaches
model loading, the model it uses is exactly this resolution (it is a pure
function of argument and environment, hence deterministic). -/
theorem C9_model_resolution (a : String) (e : Option String)
    (videoPath : String) (modelName : Option String) (env : RunEnv) :
    (a ≠ "" → resolveModel (some a) e = a) ∧
    (∀ v, resolveModel none (some v) = v) ∧
    resolveModel none none = "base" ∧
    ((transcribe_video videoPath modelName env).modelUsed = none ∨
      (transcribe_video videoPath modelName env).modelUsed =
        some (resolveModel modelName env.whisperEnv)) := by
  refine ⟨fun ha => by simp [resolveModel, ha], fun v => rfl, rfl, ?_⟩
  by_cases hv : ValidInput videoPath env
  · cases hex : env.extract with
    | some m =>
      rw [@run_extract_fail videoPath env modelName m hv hex]
      exact Or.inl rfl
    | none =>
      cases hrec : env.recognize with
      | error m =>
        rw [@run_recognize_fail videoPath env modelName m hv hex hrec]
        exact Or.inr rfl
      | ok rec =>
        rw [@run_success videoPath env modelName rec hv hex hrec]
        exact Or.inr rfl
  · obtain ⟨exc, he⟩ := @run_invalid videoPath env modelName hv
    rw [he]
    exact Or.inl rfl

/-- C9 witness: the precedence evaluated at concrete values, and a
concrete run that uses the environment override. -/
theorem C9_model_resolution_witness :
    resolveModel (some "small") (some "tiny") = "small" ∧
    resolveModel none (some "tiny") = "tiny" ∧
    resolveModel none none = "base" ∧
    ((transcribe_video "movie.mp4" none
        { envOk ⟨some "hi", none⟩ with whisperEnv := some "tiny" }).modelUsed
          = none ∨
      (transcribe_video "movie.mp4" none
        { envOk ⟨some "hi", none⟩ with whisperEnv := some "tiny" }).modelUsed
          = some (resolveModel none (some "tiny"))) :=
  ⟨(C9_model_resolution "small" (some "tiny") "" none envNoFile).1 (by decide),
   (C9_model_resolution "x" (some "tiny") "" none envNoFile).2.1 "tiny",
   (C9_model_resolution "x" none "" none envNoFile).2.2.1,
   (C9_model_resolution "x" none "movie.mp4" none
     { envOk ⟨some "hi", none⟩ with whisperEnv := some "tiny" }).2.2.2⟩

/-- C10: when the recognition result has empty trimmed text and an absent
or empty segment list, the run still succeeds: it writes an empty
transcript at the derived path, emits the final two status events, and
returns the path. -/
theorem C10_empty_transcript (videoPath : String) (modelName : Option String)
    (env : RunEnv) (rec : RecResult) (h : ValidInput videoPath env)
    (hex : env.extract = none) (hrec : env.recognize = .ok rec)
    (htext : pyStrip (rec.text.getD "") = "")
    (hseg : rec.segments.getD [] = []) :
    transcribe_video videoPath modelName env =
      { outcome := .ok (outputTxtPath (normalize_path videoPath))
        statuses := ["Извлечение аудио...", "Распознавание...", "Готово!",
                     "Сохранено в " ++ outputTxtPath (normalize_path videoPath)]
        written := some (outputTxtPath (normalize_path videoPath), "")
        modelUsed := some (resolveModel modelName env.whisperEnv)
        tempCreated := true, tempExistsAfter := false } := by
  rw [@run_success videoPath env modelName rec h hex hrec]
  have htx : extractText rec = "" := by
    unfold extractText
    simp [hseg, htext]
  rw [htx]

/-- C10 witness: `clip.mov` with result `{text: "", segments: absent}`
succeeds and writes the empty transcript. -/
theorem C10_empty_transcript_witness :
    transcribe_video "clip.mov" none (envOk ⟨some "", none⟩) =
      { outcome := .ok (outputTxtPath (normalize_path "clip.mov"))
        statuses := ["Извлечение аудио...", "Распознавание...", "Готово!",
                     "Сохранено в " ++ outputTxtPath (normalize_path "clip.mov")]
        written := some (outputTxtPath (normalize_path "clip.mov"), "")
        modelUsed := some (resolveModel none none)
        tempCreated := true, tempExistsAfter := false } ∧
    outputTxtPath (normalize_path "clip.mov") = "./clip.txt" :=
  ⟨C10_empty_transcript "clip.mov" none (envOk ⟨some "", none⟩)
      ⟨some "", none⟩ (by decide) rfl rfl (by decide) (by decide),
   by decide⟩

end Transcriber
